import Mathlib

/-!
Shallow embedding of the linkAIin delivery pipeline (src/main.py,
src/openai_utils.py, src/agents_src/tools/tools.py, src/config.py,
src/utils/email/email_send.py).

Remote collaborators (the agent runtime, the DALL-E image API, the SMTP
server) are modelled as explicit outcome parameters of type `Except`:
`.error e` models the call raising an exception with message `e`, `.ok v`
models a normal return.  Python dynamic values that may or may not be
strings are modelled by `PyVal`; absent-or-falsy JSON fields by `Option`.
-/

namespace LinkAIin

/-- A Python value as seen by the dynamic checks in the source: either a
string, or anything else (`None`, a dict, ...).  The source only ever
distinguishes "a string" from "not a string". -/
inductive PyVal where
  | str (s : String)
  | other
deriving DecidableEq

/-- Python truthiness of an optional string field: `None` and the empty
string are falsy (`if not x` in the source). -/
def truthy : Option String → Bool
  | none => false
  | some s => !s.isEmpty

/-- Python `s.startswith(p)`: `p`'s characters are a prefix of `s`'s. -/
def pyStartsWith (s p : String) : Bool := p.data.isPrefixOf s.data

/-- Python `c in s` for a single character: membership among the
characters of `s`. -/
def pyContainsChar (s : String) (c : Char) : Bool := s.data.contains c

/-- Python `s.split('\n')`: split at every newline, keeping empty
pieces. -/
def pyLines (s : String) : List String := (s.data.splitOn '\n').map String.mk

/-! ### src/config.py -/

/-- Configuration settings for LinkedIn post generation (src/config.py,
`PostConfig`). -/
structure PostConfig where
  default_max_length : Int := 3000
  min_post_length : Int := 100
  max_hashtags : Int := 5
deriving DecidableEq

/-- Default configuration, `get_default_config()["post"]` in the source. -/
def get_default_post_config : PostConfig := {}

/-! ### src/openai_utils.py — compose stage -/

/-- The clamp performed at the top of `generate_linkedin_post`
(src/openai_utils.py lines 119-123): values below `min_post_length` are
raised to it, values above `default_max_length` are lowered to it. -/
def clamp_max_length (max_length : Int) : Int :=
  let config := get_default_post_config
  if max_length < config.min_post_length then config.min_post_length
  else if max_length > config.default_max_length then config.default_max_length
  else max_length

/-- Embedding of `generate_linkedin_post` (src/openai_utils.py lines
100-177).  `agent_output` is the outcome of the compose-agent call:
`.error e` models the agent call raising, `.ok v` its `final_output`.
The whole body sits in a `try` whose handler re-raises everything as
`ValueError(f"Failed to generate LinkedIn post: {e}")`, so every error of
this function models a `ValueError` with the returned message; the
`ValueError` raised for empty or non-string output is itself caught and
wrapped by that same handler. -/
def generate_linkedin_post (agent_output : Except String PyVal)
    (max_length : Int) : Except String String :=
  let ml := clamp_max_length max_length
  match agent_output with
  | .error e => .error ("Failed to generate LinkedIn post: " ++ e)
  | .ok (.str post_content) =>
    if post_content.isEmpty then
      .error "Failed to generate LinkedIn post: Failed to generate valid LinkedIn post content"
    else if (post_content.length : Int) > ml then
      .ok (post_content.take ml.toNat)
    else
      .ok post_content
  | .ok .other =>
    .error "Failed to generate LinkedIn post: Failed to generate valid LinkedIn post content"

/-! ### src/openai_utils.py — engagement heuristic -/

/-- Python `str.split()` with no separator: split on whitespace and drop
empty pieces. -/
def pySplitWs (s : String) : List String :=
  ((s.data.splitOnP Char.isWhitespace).map String.mk).filter (fun t => !t.isEmpty)

/-- Result record of `analyze_engagement_potential`. -/
structure EngagementReport where
  engagement_score : ℚ
  suggested_improvements : List String
  hashtag_suggestions : List String
deriving DecidableEq

/-- Embedding of `analyze_engagement_potential` (src/openai_utils.py lines
297-349).  Note the hashtag-suggestion condition is the Python substring
test `"#" not in post_content`, i.e. absence of the character anywhere,
not a per-token test. -/
def analyze_engagement_potential (post_content : String) : EngagementReport :=
  let word_count : Nat := (pySplitWs post_content).length
  let engagement_score : ℚ := min 100 (max 0 ((word_count : ℚ) / 30))
  let suggestions : List String :=
    (if word_count < 50 then ["Consider adding more content for better engagement"]
     else if word_count > 500 then ["Post might be too long for optimal engagement"]
     else []) ++
    (if pyContainsChar post_content '#' then [] else ["Consider adding relevant hashtags"])
  let hashtags : List String :=
    (pySplitWs post_content).filter (fun w => pyStartsWith w "#")
  let hashtags :=
    if hashtags.isEmpty then ["#linkedin", "#professional", "#business"] else hashtags
  { engagement_score := engagement_score
    suggested_improvements := suggestions
    hashtag_suggestions := hashtags }

/-! ### src/agents_src/tools/tools.py -/

/-- Embedding of the tool function `generate_linkedin_image`
(src/agents_src/tools/tools.py lines 13-39); the `function_tool`
decorator is treated as transparent.  `api_result` is the outcome of
`client.images.generate(...)`: `.ok url` a successful call returning
`response.data[0].url`, `.error e` the call raising.  The function
catches every exception and returns an ordinary string, so the embedding
is total: it always returns a `String`, never an error. -/
def generate_linkedin_image (api_result : Except String String) : String :=
  match api_result with
  | .ok url => url
  | .error e => "Error generating image: " ++ e

/-! ### src/openai_utils.py — image stage -/

/-- One message of the image agent's run result (`result.messages`). -/
structure AgentMsg where
  content : Option String
deriving DecidableEq

/-- The image agent's run result: `final_output` plus the optional
`messages` attribute (`none` models the attribute being absent). -/
structure ImageAgentResult where
  final_output : PyVal
  messages : Option (List AgentMsg)
deriving DecidableEq

/-- The line filter of the fallback prompt scan (src/openai_utils.py line
251): length > 40, no colon among the first 10 characters, and not a
tool-call echo. -/
def lineQualifies (line : String) : Bool :=
  decide (line.length > 40) && !pyContainsChar (line.take 10) ':'
    && !pyStartsWith line "generate_linkedin_image"

/-- The prompt scan over `result.messages` (src/openai_utils.py lines
245-253).  The inner loop breaks at the first qualifying line of a
message, but the outer loop keeps going, so a later message with a
qualifying line overwrites an earlier find; messages with falsy content
or no qualifying line leave the previous find in place. -/
def scanForPrompt (msgs : List AgentMsg) : Option String :=
  msgs.foldl
    (fun acc msg =>
      match msg.content with
      | some c =>
        if c.isEmpty then acc
        else
          match (pyLines c).find? lineQualifies with
          | some l => some l
          | none => acc
      | none => acc)
    none

/-- Which fallback levels of the image stage actually ran. -/
inductive ImgFallback where
  | toolDirect
  | rawApi
deriving DecidableEq

/-- Embedding of `generate_post_image` (src/openai_utils.py lines
180-295).  `agent` is the outcome of the image-agent call, `tool_api` the
outcome of the image API call inside the directly-invoked tool
`generate_linkedin_image`, and `direct_api` the outcome of the
last-resort `client.images.generate` call.  Errors model the wrapping
`Exception(f"Failed to generate post image: {e}")` raised by the outer
handler.  The second component records which fallback levels ran.
Note: the result of the direct tool call is returned without any further
"http" validation — the tool never raises, so its `Error generating
image:` string is a possible success value, and the raw-API level is then
not attempted. -/
def generate_post_image (agent : Except String ImageAgentResult)
    (tool_api : Except String String) (direct_api : Except String String) :
    Except String String × List ImgFallback :=
  match agent with
  | .error e => (.error ("Failed to generate post image: " ++ e), [])
  | .ok result =>
    let lastResortCall : Except String String × List ImgFallback :=
      (match direct_api with
       | .ok url => .ok url
       | .error e => .error ("Failed to generate post image: " ++ e),
       [.rawApi])
    let fallback : Except String String × List ImgFallback :=
      match result.messages with
      | some msgs =>
        if msgs.isEmpty then lastResortCall
        else
          match scanForPrompt msgs with
          | some _prompt => (.ok (generate_linkedin_image tool_api), [.toolDirect])
          | none => lastResortCall
      | none => lastResortCall
    match result.final_output with
    | .str s => if pyStartsWith s "http" then (.ok s, []) else fallback
    | .other => fallback

/-! ### src/utils/email/email_send.py -/

/-- Arguments of a `send_email` call as made by main.py (the bodies are
rendered from the post content; only the fields the claims speak about
are kept as data). -/
structure EmailArgs where
  sender_email : String
  app_password : String
  recipient_email : String
  subject : String
deriving DecidableEq

/-- The MIME headers set on the message (src/utils/email/email_send.py
lines 40-44): `From` is `sender_email`, `To` is `recipient_email`. -/
structure MimeHeaders where
  fromAddr : String
  toAddr : String
  subject : String
deriving DecidableEq

/-- Message construction of `send_email` (lines 40-44 of
email_send.py). -/
def send_email_message (args : EmailArgs) : MimeHeaders :=
  { fromAddr := args.sender_email
    toAddr := args.recipient_email
    subject := args.subject }

/-- The credentials passed to `server.login` (line 88 of email_send.py):
the sender address and the app password. -/
def send_email_login (args : EmailArgs) : String × String :=
  (args.sender_email, args.app_password)

/-- Outcome of the SMTP session attempted by `send_email`. -/
inductive SmtpOutcome where
  | sentOk
  | authError
  | smtpError (msg : String)
  | unexpectedError (msg : String)
deriving DecidableEq

/-- Embedding of the transport part of `send_email`
(src/utils/email/email_send.py lines 78-105): every exception class is
caught and turned into `False`, a completed send returns `True`.  The
function therefore never raises; its only signal to the caller is the
returned boolean. -/
def send_email (args : EmailArgs) (outcome : SmtpOutcome) : Bool :=
  let _headers := send_email_message args
  let _login := send_email_login args
  match outcome with
  | .sentOk => true
  | .authError => false
  | .smtpError _ => false
  | .unexpectedError _ => false

/-! ### src/main.py — request handler -/

/-- The JSON body of a request as read by `request_json.get(...)`
(src/main.py lines 104-142).  `none` models an absent key; the `getD`
defaults below mirror the defaults passed to `.get`. -/
structure ReqJson where
  openai_api_key : Option String := none
  topic : Option String := none
  links : List String := []
  generate_image : Bool := false
  max_length : Int := 3000
  post_to_linkedin : Option Bool := none
  send_email : Option Bool := none
  linkedin_token : Option String := none
  email_app_password : Option String := none
  destination_email : Option String := none
deriving DecidableEq

/-- An inbound HTTP request: the method and the parsed JSON body
(`none` models `request.get_json()` returning nothing usable). -/
structure HttpRequest where
  method : String
  json : Option ReqJson
deriving DecidableEq

/-- Outcomes of all remote collaborators consulted during one request.
`searchOutcome`: result of `search_web_content` (its errors are already
wrapped as `Failed to search and analyze web content: ...` and model a
raised `Exception`).  `composeAgent`: the compose agent's outcome fed to
`generate_linkedin_post`.  `imageAgent`, `imageToolApi`,
`imageDirectApi`: the three oracles of `generate_post_image`.  `smtp`:
the SMTP session outcome inside `send_email`. -/
structure Env where
  searchOutcome : Except String String
  composeAgent : Except String PyVal
  imageAgent : Except String ImageAgentResult
  imageToolApi : Except String String
  imageDirectApi : Except String String
  smtp : SmtpOutcome

/-- The response envelope together with the HTTP status code (Python
returns `jsonify({...}), status`). -/
structure Response where
  success : Bool
  status : Nat
  error : Option String := none
  delivery_method : Option String := none
  email_sent : Option Bool := none
  post_url : Option String := none
  destination_email : Option String := none
  post_content : Option String := none
  image_url : Option String := none
deriving DecidableEq

/-- Which delivery adapters the handler actually invoked during the
request: the social-post adapter call count and the arguments of each
`send_email` call. -/
structure Trace where
  socialCalls : Nat := 0
  emailCalls : List EmailArgs := []
deriving DecidableEq

/-- Response plus adapter trace: the full observable outcome of one
handler invocation. -/
structure HandlerOutput where
  response : Response
  trace : Trace
deriving DecidableEq

/-- A failure envelope `{'success': False, 'error': msg}` with a status
code. -/
def errResp (status : Nat) (msg : String) : Response :=
  { success := false, status := status, error := some msg }

/-- The validated parameters available after src/main.py lines 104-161
when no early `return` fired. -/
structure Validated where
  openai_api_key : String
  topic : String
  links : List String
  generate_image : Bool
  max_length : Int
  post_to_linkedin : Bool
  send_email_flag : Bool
  linkedin_token : Option String
  email_app_password : Option String
  destination_email : Option String
deriving DecidableEq

/-- The validation prefix of `linkedin_ai_poster` (src/main.py lines
104-161), with each early `return` modelled as `.error` carrying the
response it produces.  Mirrors the source order: required-field checks,
then the conflicting-channels check on `post_to_linkedin` (default
`True`) and `send_email` (default `False`), then the re-default to
LinkedIn when neither is set, then channel-credential checks. -/
def validate (j : ReqJson) : Except Response Validated :=
  if !truthy j.openai_api_key then
    .error (errResp 400 "Missing OpenAI API key")
  else if !truthy j.topic then
    .error (errResp 400 "Missing post topic")
  else
    let ptl := j.post_to_linkedin.getD true
    let sef := j.send_email.getD false
    if ptl && sef then
      .error (errResp 400 "Cannot both post to LinkedIn and send email - please choose one delivery method")
    else
      let ptl := if !ptl && !sef then true else ptl
      let ltk := if ptl then j.linkedin_token else none
      let pw := if sef then j.email_app_password else none
      let de := if sef then j.destination_email else none
      if ptl && !truthy ltk then
        .error (errResp 400 "Missing LinkedIn token for LinkedIn posting")
      else if sef && !truthy pw then
        .error (errResp 400 "Missing email app password for email delivery")
      else if sef && !truthy de then
        .error (errResp 400 "Missing destination email for email delivery")
      else
        .ok { openai_api_key := j.openai_api_key.getD ""
              topic := j.topic.getD ""
              links := j.links
              generate_image := j.generate_image
              max_length := j.max_length
              post_to_linkedin := ptl
              send_email_flag := sef
              linkedin_token := ltk
              email_app_password := pw
              destination_email := de }

/-- The pipeline and delivery part of `linkedin_ai_poster` (src/main.py
lines 163-363).  Exceptions propagate to the outer handlers: a
`ValueError` (only `generate_linkedin_post` raises one) becomes a 400
with the error text, any other exception a 500 with
`An unexpected error occurred: ...`.

At line 211 the source evaluates `post_to_linkedin(linkedin_token,
post_content, image_url)`, but `post_to_linkedin` there names the local
request flag (a `bool`), which shadows the module-level function of the
same name: Python raises `TypeError: 'bool' object is not callable`,
caught by the generic handler.  The LinkedIn success response at lines
213-221 is therefore dead code, and the social-post adapter is never
invoked; the embedding reflects this. -/
def runPipeline (v : Validated) (env : Env) : HandlerOutput :=
  match env.searchOutcome with
  | .error e => ⟨errResp 500 ("An unexpected error occurred: " ++ e), {}⟩
  | .ok _search_results =>
    match generate_linkedin_post env.composeAgent v.max_length with
    | .error e => ⟨errResp 400 e, {}⟩
    | .ok post_content =>
      let imageRes : Except String (Option String) :=
        if v.generate_image then
          match (generate_post_image env.imageAgent env.imageToolApi env.imageDirectApi).1 with
          | .error e => .error e
          | .ok url => .ok (some url)
        else .ok none
      match imageRes with
      | .error e => ⟨errResp 500 ("An unexpected error occurred: " ++ e), {}⟩
      | .ok image_url =>
        let _engagement := analyze_engagement_potential post_content
        if v.post_to_linkedin then
          ⟨errResp 500 "An unexpected error occurred: 'bool' object is not callable", {}⟩
        else if v.send_email_flag then
          let dest := v.destination_email.getD ""
          let args : EmailArgs :=
            { sender_email := dest
              app_password := v.email_app_password.getD ""
              recipient_email := dest
              subject := "AI-Generated Post: " ++ v.topic }
          let _returned := send_email args env.smtp
          ⟨{ success := true
             status := 200
             delivery_method := some "email"
             email_sent := some true
             destination_email := some dest
             post_content := some post_content
             image_url := image_url },
           { emailCalls := [args] }⟩
        else
          ⟨errResp 500 "An unexpected error occurred: local variable referenced before assignment", {}⟩

/-- Embedding of the Cloud Function `linkedin_ai_poster` (src/main.py
lines 58-363): method check, JSON check, validation, pipeline,
delivery. -/
def linkedin_ai_poster (req : HttpRequest) (env : Env) : HandlerOutput :=
  if req.method ≠ "POST" then
    ⟨errResp 405 "Only POST requests are supported", {}⟩
  else
    match req.json with
    | none => ⟨errResp 400 "Request body must contain valid JSON", {}⟩
    | some j =>
      match validate j with
      | .error r => ⟨r, {}⟩
      | .ok v => runPipeline v env

/-- Embedding of the module-level function `post_to_linkedin`
(src/main.py lines 366-403) that the handler intends to call: the
LinkedIn API interactions are abstracted as one outcome producing the
post URL; any failure is re-raised wrapped.  The handler never reaches
this function (see `runPipeline`). -/
def post_to_linkedin_fn (api : Except String String) : Except String String :=
  match api with
  | .ok post_url => .ok post_url
  | .error e => .error ("Failed to post to LinkedIn: " ++ e)

/-! ### Concrete fixtures used by the witness and counterexample theorems -/

/-- A well-formed LinkedIn-channel request body. -/
def linkedinReqJson : ReqJson :=
  { openai_api_key := some "sk-test"
    topic := some "AI in Healthcare"
    post_to_linkedin := some true
    linkedin_token := some "tok-123" }

/-- A well-formed email-channel request body. -/
def emailReqJson : ReqJson :=
  { openai_api_key := some "sk-test"
    topic := some "AI in Healthcare"
    post_to_linkedin := some false
    send_email := some true
    email_app_password := some "app-pass"
    destination_email := some "user@example.com" }

/-- A request body that sets `send_email` to true and leaves
`post_to_linkedin` unset. -/
def emailOnlyReqJson : ReqJson :=
  { openai_api_key := some "sk-test"
    topic := some "AI in Healthcare"
    send_email := some true
    email_app_password := some "app-pass"
    destination_email := some "user@example.com" }

/-- A request body with both channel flags explicitly true and no
topic. -/
def conflictNoTopicReqJson : ReqJson :=
  { openai_api_key := some "sk-test"
    post_to_linkedin := some true
    send_email := some true }

/-- An image-agent run whose final output is a valid URL. -/
def okImageAgentResult : ImageAgentResult :=
  { final_output := .str "https://img.example/x.png", messages := none }

/-- An environment in which every remote collaborator succeeds. -/
def envAllOk : Env :=
  { searchOutcome := .ok "search results"
    composeAgent := .ok (.str "A post about AI in healthcare.")
    imageAgent := .ok okImageAgentResult
    imageToolApi := .ok "https://img.example/x.png"
    imageDirectApi := .ok "https://img.example/y.png"
    smtp := .sentOk }

/-- The all-ok environment except that SMTP authentication is
rejected. -/
def envSmtpAuthFail : Env :=
  { envAllOk with smtp := .authError }

/-- The all-ok environment except that the compose-agent call raises. -/
def envComposeFail : Env :=
  { envAllOk with composeAgent := .error "LLM call failed" }

/-- A salvageable prompt line: longer than 40 characters, no colon among
the first 10, not a tool-call echo. -/
def c4PromptLine : String :=
  "A professional business image about artificial intelligence in healthcare settings"

/-- An image-agent run whose final output is not a URL but whose messages
contain a salvageable prompt line. -/
def badUrlImageAgentResult : ImageAgentResult :=
  { final_output := .str "I could not produce a URL"
    messages := some [{ content := some c4PromptLine }] }

/-- A request body with both channel flags explicitly true and all
required fields present. -/
def conflictFullReqJson : ReqJson :=
  { openai_api_key := some "sk-test"
    topic := some "AI in Healthcare"
    post_to_linkedin := some true
    send_email := some true
    linkedin_token := some "tok-123"
    email_app_password := some "app-pass"
    destination_email := some "user@example.com" }

/-- The validated parameters produced by `validate emailReqJson`. -/
def emailValidated : Validated :=
  { openai_api_key := "sk-test"
    topic := "AI in Healthcare"
    links := []
    generate_image := false
    max_length := 3000
    post_to_linkedin := false
    send_email_flag := true
    linkedin_token := none
    email_app_password := some "app-pass"
    destination_email := some "user@example.com" }

/-- The `send_email` arguments the handler builds for `emailReqJson`. -/
def userEmailArgs : EmailArgs :=
  { sender_email := "user@example.com"
    app_password := "app-pass"
    recipient_email := "user@example.com"
    subject := "AI-Generated Post: AI in Healthcare" }

/-! ## Theorems -/

/-- C10: `generate_linkedin_image` never raises: it is a total function
into `String`; when the underlying image API call throws with message
`e`, it returns the ordinary string `"Error generating image: " ++ e`,
which begins with `"Error generating image:"`, and when the call
succeeds it returns the URL unchanged. -/
theorem c10_generate_linkedin_image_never_raises (e url : String) :
    generate_linkedin_image (Except.error e) = "Error generating image: " ++ e ∧
    pyStartsWith (generate_linkedin_image (Except.error e)) "Error generating image:" = true ∧
    generate_linkedin_image (Except.ok url) = url :=
  ⟨rfl, rfl, rfl⟩

/-- C1 (code bug): a valid LinkedIn-channel request on which search,
compose and image succeed does not invoke the social-post adapter and
does not return a success envelope: at src/main.py line 211 the local
boolean `post_to_linkedin` shadows the function of the same name, so the
handler raises `TypeError`, is caught by the generic handler, and
returns 500 with `success: false`; neither adapter runs. -/
theorem c1_valid_linkedin_request_returns_500_no_adapter :
    (linkedin_ai_poster ⟨"POST", some linkedinReqJson⟩ envAllOk).response.status = 500 ∧
    (linkedin_ai_poster ⟨"POST", some linkedinReqJson⟩ envAllOk).response.success = false ∧
    (linkedin_ai_poster ⟨"POST", some linkedinReqJson⟩ envAllOk).response.error =
      some "An unexpected error occurred: 'bool' object is not callable" ∧
    (linkedin_ai_poster ⟨"POST", some linkedinReqJson⟩ envAllOk).trace.socialCalls = 0 ∧
    (linkedin_ai_poster ⟨"POST", some linkedinReqJson⟩ envAllOk).trace.emailCalls = [] := by
  decide

/-- C2 (code bug): when SMTP authentication is rejected, `send_email`
returns `False` (for every argument record) instead of raising; the
handler ignores the returned boolean, so a valid email-channel request
whose SMTP transport fails is reported as `success: true`,
`email_sent: true` with HTTP status 200 — not as a 500 failure. -/
theorem c2_smtp_failure_reported_as_success :
    (∀ a : EmailArgs, send_email a SmtpOutcome.authError = false) ∧
    (linkedin_ai_poster ⟨"POST", some emailReqJson⟩ envSmtpAuthFail).response.status = 200 ∧
    (linkedin_ai_poster ⟨"POST", some emailReqJson⟩ envSmtpAuthFail).response.success = true ∧
    (linkedin_ai_poster ⟨"POST", some emailReqJson⟩ envSmtpAuthFail).response.email_sent =
      some true := by
  exact ⟨fun a => rfl, by decide, by decide, by decide⟩

/-- C3 counterexample: a request with `send_email: true` and no
`post_to_linkedin` key is not routed to the email adapter;
`post_to_linkedin` defaults to true unconditionally, so the request
fails validation with the conflicting-channels 400 error and no email is
sent. -/
theorem c3_counterexample_email_only_request_conflicts :
    (linkedin_ai_poster ⟨"POST", some emailOnlyReqJson⟩ envAllOk).response =
      errResp 400
        "Cannot both post to LinkedIn and send email - please choose one delivery method" ∧
    (linkedin_ai_poster ⟨"POST", some emailOnlyReqJson⟩ envAllOk).trace.emailCalls = [] := by
  decide

/-- C5 counterexample: a valid email-channel request whose compose-agent
call fails is answered with HTTP status 400 (the `ValueError` handler),
not 500. -/
theorem c5_counterexample_compose_failure_is_400 :
    (linkedin_ai_poster ⟨"POST", some emailReqJson⟩ envComposeFail).response.status = 400 ∧
    (linkedin_ai_poster ⟨"POST", some emailReqJson⟩ envComposeFail).response.status ≠ 500 ∧
    (linkedin_ai_poster ⟨"POST", some emailReqJson⟩ envComposeFail).response.success = false ∧
    (linkedin_ai_poster ⟨"POST", some emailReqJson⟩ envComposeFail).response.error =
      some "Failed to generate LinkedIn post: LLM call failed" := by
  decide

/-- C6 counterexample: a request with both channel flags explicitly true
but no `topic` is answered 400 with the `Missing post topic` message,
not with the conflicting-channels message: the required-field checks run
first. -/
theorem c6_counterexample_conflict_without_topic :
    (linkedin_ai_poster ⟨"POST", some conflictNoTopicReqJson⟩ envAllOk).response =
      errResp 400 "Missing post topic" ∧
    (linkedin_ai_poster ⟨"POST", some conflictNoTopicReqJson⟩ envAllOk).response.error ≠
      some "Cannot both post to LinkedIn and send email - please choose one delivery method" := by
  decide

/-- C8 counterexample: in the text `"a# b"` no whitespace-delimited token
starts with `#`, yet the add-hashtags suggestion is absent, because the
source tests the substring condition `"#" in post_content`, which holds
here. -/
theorem c8_counterexample_token_vs_substring :
    (∀ t ∈ pySplitWs "a# b", pyStartsWith t "#" = false) ∧
    "Consider adding relevant hashtags" ∉
      (analyze_engagement_potential "a# b").suggested_improvements := by
  decide

/-- C4 counterexample: with a non-http agent output, a salvageable
prompt in the messages, and an image API that throws inside the tool,
the stage returns the tool's `Error generating image:` string as a
success value — a non-http string — and the raw-API level is not
attempted. -/
theorem c4_counterexample_tool_error_string_returned_as_success :
    (generate_post_image (Except.ok badUrlImageAgentResult)
        (Except.error "API quota exceeded") (Except.ok "https://cdn.example/z.png")) =
      (Except.ok "Error generating image: API quota exceeded", [ImgFallback.toolDirect]) ∧
    pyStartsWith "Error generating image: API quota exceeded" "http" = false := by
  exact ⟨rfl, by decide⟩

/-- Helper: the clamp always lands in the configured interval. -/
theorem clamp_max_length_bounds (m : Int) :
    100 ≤ clamp_max_length m ∧ clamp_max_length m ≤ 3000 := by
  simp only [clamp_max_length, get_default_post_config]
  split_ifs <;> omega

/-- Helper: taking `n` characters yields at most `n` characters. -/
theorem string_take_length_le (s : String) (n : Nat) : (s.take n).length ≤ n := by
  rw [String.take_eq]
  show (s.data.take n).length ≤ n
  simp [List.length_take]

/-- C7: for every integer `max_length`, `generate_linkedin_post` clamps
it into `[min_post_length, default_max_length]` = `[100, 3000]` before
use; every successfully returned string has length at most the clamped
value, and over-length agent output is hard-truncated by character
slicing (`take`). -/
theorem c7_compose_clamps_and_truncates (max_length : Int)
    (agent_output : Except String PyVal) (out : String)
    (h : generate_linkedin_post agent_output max_length = Except.ok out) :
    get_default_post_config.min_post_length ≤ clamp_max_length max_length ∧
    clamp_max_length max_length ≤ get_default_post_config.default_max_length ∧
    (out.length : Int) ≤ clamp_max_length max_length ∧
    ∀ s, agent_output = Except.ok (PyVal.str s) →
      (s.length : Int) > clamp_max_length max_length →
        out = s.take (clamp_max_length max_length).toNat := by
  have hb := clamp_max_length_bounds max_length
  refine ⟨hb.1, hb.2, ?_, ?_⟩
  all_goals
    cases agent_output with
    | error e => simp [generate_linkedin_post] at h
    | ok v =>
      cases v with
      | other => simp [generate_linkedin_post] at h
      | str s =>
        simp only [generate_linkedin_post] at h
        by_cases hemp : s.isEmpty
        · simp [hemp] at h
        · by_cases hlen : (s.length : Int) > clamp_max_length max_length
          · rw [if_neg hemp, if_pos hlen] at h
            cases h with
            | refl =>
              first
              | · have hle := string_take_length_le s (clamp_max_length max_length).toNat
                  have : ((clamp_max_length max_length).toNat : Int) = clamp_max_length max_length :=
                    Int.toNat_of_nonneg (by omega)
                  omega
              | · intro t ht _hgt
                  cases ht with
                  | refl => rfl
          · rw [if_neg hemp, if_neg hlen] at h
            cases h with
            | refl =>
              first
              | omega
              | · intro t ht hgt
                  cases ht with
                  | refl => exact absurd hgt hlen

/-- Witness for C7 at `max_length = 1` and a concrete agent output. -/
theorem c7_compose_clamps_and_truncates_witness :
    generate_linkedin_post (Except.ok (PyVal.str "Hello world post")) 1 =
      Except.ok "Hello world post" ∧
    (get_default_post_config.min_post_length ≤ clamp_max_length 1 ∧
     clamp_max_length 1 ≤ get_default_post_config.default_max_length ∧
     (("Hello world post" : String).length : Int) ≤ clamp_max_length 1 ∧
     ∀ s, (Except.ok (PyVal.str "Hello world post") : Except String PyVal) =
         Except.ok (PyVal.str s) →
       (s.length : Int) > clamp_max_length 1 →
         "Hello world post" = s.take (clamp_max_length 1).toNat) :=
  ⟨rfl, c7_compose_clamps_and_truncates 1 (Except.ok (PyVal.str "Hello world post"))
    "Hello world post" rfl⟩

/-- C8 (amended): the add-hashtags suggestion is present exactly when
the character `#` does not occur anywhere in the text — the source's
substring test `"#" in post_content` — rather than when no
whitespace-delimited token starts with `#`. -/
theorem c8_amended_suggestion_iff_no_hash_char (post_content : String) :
    "Consider adding relevant hashtags" ∈
      (analyze_engagement_potential post_content).suggested_improvements ↔
    pyContainsChar post_content '#' = false := by
  have hstr1 : ("Consider adding relevant hashtags" : String) ≠
      "Consider adding more content for better engagement" := by decide
  have hstr2 : ("Consider adding relevant hashtags" : String) ≠
      "Post might be too long for optimal engagement" := by decide
  unfold analyze_engagement_potential
  by_cases hc : pyContainsChar post_content '#' <;>
    by_cases h50 : (pySplitWs post_content).length < 50 <;>
      by_cases h500 : (pySplitWs post_content).length > 500 <;>
        simp [hc, h50, h500, hstr1, hstr2]

/-- C3 (amended): when the JSON body has `send_email: true` and no
`post_to_linkedin` key, `post_to_linkedin` still defaults to true, so
the request fails validation with the conflicting-channels 400 error
instead of being routed to the email adapter. -/
theorem c3_amended_absent_flag_defaults_true_conflicts (j : ReqJson) (env : Env)
    (h1 : j.post_to_linkedin = none) (h2 : j.send_email = some true)
    (h3 : truthy j.openai_api_key = true) (h4 : truthy j.topic = true) :
    (linkedin_ai_poster ⟨"POST", some j⟩ env).response =
      errResp 400
        "Cannot both post to LinkedIn and send email - please choose one delivery method" ∧
    (linkedin_ai_poster ⟨"POST", some j⟩ env).trace.emailCalls = [] := by
  simp [linkedin_ai_poster, validate, h1, h2, h3, h4]

/-- Witness for the amended C3 at the concrete request body
`emailOnlyReqJson`. -/
theorem c3_amended_absent_flag_defaults_true_conflicts_witness :
    emailOnlyReqJson.post_to_linkedin = none ∧
    emailOnlyReqJson.send_email = some true ∧
    truthy emailOnlyReqJson.openai_api_key = true ∧
    truthy emailOnlyReqJson.topic = true ∧
    ((linkedin_ai_poster ⟨"POST", some emailOnlyReqJson⟩ envAllOk).response =
        errResp 400
          "Cannot both post to LinkedIn and send email - please choose one delivery method" ∧
      (linkedin_ai_poster ⟨"POST", some emailOnlyReqJson⟩ envAllOk).trace.emailCalls = []) :=
  ⟨rfl, rfl, by decide, by decide,
    c3_amended_absent_flag_defaults_true_conflicts emailOnlyReqJson envAllOk rfl rfl
      (by decide) (by decide)⟩

/-- C6 (amended): provided `openai_api_key` and `topic` are present and
non-empty, a POST body with both `post_to_linkedin` and `send_email`
explicitly true is answered 400 with the conflicting-channels message,
regardless of all remaining fields; when `openai_api_key` or `topic` is
missing, the earlier required-field 400 fires instead. -/
theorem c6_amended_conflict_after_required_fields (j : ReqJson) (env : Env)
    (h1 : truthy j.openai_api_key = true) (h2 : truthy j.topic = true)
    (h3 : j.post_to_linkedin = some true) (h4 : j.send_email = some true) :
    (linkedin_ai_poster ⟨"POST", some j⟩ env).response =
      errResp 400
        "Cannot both post to LinkedIn and send email - please choose one delivery method" := by
  simp [linkedin_ai_poster, validate, h1, h2, h3, h4]

/-- Witness for the amended C6 at the concrete request body
`conflictFullReqJson`. -/
theorem c6_amended_conflict_after_required_fields_witness :
    truthy conflictFullReqJson.openai_api_key = true ∧
    truthy conflictFullReqJson.topic = true ∧
    conflictFullReqJson.post_to_linkedin = some true ∧
    conflictFullReqJson.send_email = some true ∧
    (linkedin_ai_poster ⟨"POST", some conflictFullReqJson⟩ envAllOk).response =
      errResp 400
        "Cannot both post to LinkedIn and send email - please choose one delivery method" :=
  ⟨by decide, by decide, rfl, rfl,
    c6_amended_conflict_after_required_fields conflictFullReqJson envAllOk (by decide)
      (by decide) rfl rfl⟩

/-- C5 (amended): when the compose-agent call fails or returns an empty
or non-string output, `generate_linkedin_post` raises a `ValueError`,
which the handler's `except ValueError` clause maps to HTTP status 400
(not 500), with `success: false` and the wrapped error message. -/
theorem c5_amended_compose_failure_surfaces_as_400 (j : ReqJson) (env : Env)
    (v : Validated) (s : String)
    (hv : validate j = Except.ok v)
    (hs : env.searchOutcome = Except.ok s)
    (hc : (∃ m, env.composeAgent = Except.error m) ∨
          env.composeAgent = Except.ok PyVal.other ∨
          env.composeAgent = Except.ok (PyVal.str "")) :
    (linkedin_ai_poster ⟨"POST", some j⟩ env).response.status = 400 ∧
    (linkedin_ai_poster ⟨"POST", some j⟩ env).response.success = false := by
  have hcomp : ∃ e, generate_linkedin_post env.composeAgent v.max_length = Except.error e := by
    rcases hc with ⟨m, hm⟩ | ho | he
    · rw [hm]; exact ⟨_, rfl⟩
    · rw [ho]; exact ⟨_, rfl⟩
    · rw [he]; exact ⟨_, rfl⟩
  obtain ⟨e, hgen⟩ := hcomp
  simp [linkedin_ai_poster, runPipeline, hv, hs, hgen, errResp]

/-- Witness for the amended C5 at the concrete email request and a
failing compose agent. -/
theorem c5_amended_compose_failure_surfaces_as_400_witness :
    validate emailReqJson = Except.ok emailValidated ∧
    envComposeFail.searchOutcome = Except.ok "search results" ∧
    (∃ m, envComposeFail.composeAgent = Except.error m) ∧
    ((linkedin_ai_poster ⟨"POST", some emailReqJson⟩ envComposeFail).response.status = 400 ∧
      (linkedin_ai_poster ⟨"POST", some emailReqJson⟩ envComposeFail).response.success = false) :=
  ⟨rfl, rfl, ⟨"LLM call failed", rfl⟩,
    c5_amended_compose_failure_surfaces_as_400 emailReqJson envComposeFail emailValidated
      "search results" rfl rfl (Or.inl ⟨"LLM call failed", rfl⟩)⟩

/-- C4 (amended): whenever the image agent's final output is not an
http-prefixed string, the fallback chain is engaged in the documented
order: if the run's messages contain a salvageable prompt, the tool is
called directly and its result is returned as success without any http
validation (so a non-http `Error generating image:` string can be
returned, and the raw-API level is then skipped); otherwise the raw
image API is called and its result returned. -/
theorem c4_amended_fallback_order (A : ImageAgentResult) (T D : Except String String)
    (hinvalid : ∀ s, A.final_output = PyVal.str s → pyStartsWith s "http" = false) :
    (∃ msgs p, A.messages = some msgs ∧ msgs.isEmpty = false ∧
        scanForPrompt msgs = some p ∧
        generate_post_image (Except.ok A) T D =
          (Except.ok (generate_linkedin_image T), [ImgFallback.toolDirect])) ∨
    generate_post_image (Except.ok A) T D =
      ((match D with
        | Except.ok url => Except.ok url
        | Except.error e => Except.error ("Failed to generate post image: " ++ e)),
       [ImgFallback.rawApi]) := by
  obtain ⟨fo, ms⟩ := A
  have hneq : ∀ s, fo = PyVal.str s → pyStartsWith s "http" = false :=
    fun s h => hinvalid s h
  clear hinvalid
  cases ms with
  | none =>
    right
    cases fo with
    | str s => simp [generate_post_image, hneq s rfl]
    | other => simp [generate_post_image]
  | some msgs =>
    by_cases hm : msgs.isEmpty
    · right
      cases fo with
      | str s => simp [generate_post_image, hneq s rfl, hm]
      | other => simp [generate_post_image, hm]
    · cases hS : scanForPrompt msgs with
      | some p =>
        left
        refine ⟨msgs, p, rfl, by simpa using hm, hS, ?_⟩
        cases fo with
        | str s => simp [generate_post_image, hneq s rfl, hm, hS]
        | other => simp [generate_post_image, hm, hS]
      | none =>
        right
        cases fo with
        | str s => simp [generate_post_image, hneq s rfl, hm, hS]
        | other => simp [generate_post_image, hm, hS]

/-- Witness for the amended C4 at a concrete agent result with a
salvageable prompt and a throwing tool API. -/
theorem c4_amended_fallback_order_witness :
    (∀ s, badUrlImageAgentResult.final_output = PyVal.str s →
      pyStartsWith s "http" = false) ∧
    ((∃ msgs p, badUrlImageAgentResult.messages = some msgs ∧ msgs.isEmpty = false ∧
        scanForPrompt msgs = some p ∧
        generate_post_image (Except.ok badUrlImageAgentResult)
            (Except.error "API quota exceeded") (Except.ok "https://cdn.example/z.png") =
          (Except.ok (generate_linkedin_image (Except.error "API quota exceeded")),
           [ImgFallback.toolDirect])) ∨
      generate_post_image (Except.ok badUrlImageAgentResult)
          (Except.error "API quota exceeded") (Except.ok "https://cdn.example/z.png") =
        ((match (Except.ok "https://cdn.example/z.png" : Except String String) with
          | Except.ok url => Except.ok url
          | Except.error e => Except.error ("Failed to generate post image: " ++ e)),
         [ImgFallback.rawApi])) :=
  ⟨fun s h => by injection h with h2; subst h2; decide,
    c4_amended_fallback_order badUrlImageAgentResult (Except.error "API quota exceeded")
      (Except.ok "https://cdn.example/z.png")
      (fun s h => by injection h with h2; subst h2; decide)⟩

/-- Helper: when validation succeeds with the email channel selected,
the validated destination address is the request's own
`destination_email` field and it passed the truthiness check. -/
theorem validate_email_channel (j : ReqJson) (v : Validated)
    (h : validate j = Except.ok v) (hsef : v.send_email_flag = true) :
    v.destination_email = j.destination_email ∧
    truthy v.destination_email = true := by
  cases hptl : j.post_to_linkedin.getD true with
  | false =>
    cases hsefj : j.send_email.getD false with
    | false =>
      simp [validate, hptl, hsefj] at h
      split at h
      · exact Except.noConfusion h
      split at h
      · exact Except.noConfusion h
      split at h
      · exact Except.noConfusion h
      injection h with h2
      subst h2
      simp at hsef
    | true =>
      simp [validate, hptl, hsefj] at h
      split at h
      · exact Except.noConfusion h
      split at h
      · exact Except.noConfusion h
      split at h
      · exact Except.noConfusion h
      split at h
      · exact Except.noConfusion h
      rename_i hF
      injection h with h2
      subst h2
      refine ⟨rfl, ?_⟩
      simpa using hF
  | true =>
    cases hsefj : j.send_email.getD false with
    | false =>
      simp [validate, hptl, hsefj] at h
      split at h
      · exact Except.noConfusion h
      split at h
      · exact Except.noConfusion h
      split at h
      · exact Except.noConfusion h
      injection h with h2
      subst h2
      simp at hsef
    | true =>
      simp [validate, hptl, hsefj] at h
      split at h
      · exact Except.noConfusion h
      split at h
      · exact Except.noConfusion h
      exact Except.noConfusion h

/-- C9: every `send_email` call the handler ever makes uses the same
address as sender and recipient, that address is the request's own
`destination_email`, the MIME `From` header is that sender address, and
the SMTP login account is that sender address. -/
theorem c9_email_sender_equals_destination (req : HttpRequest) (env : Env) (a : EmailArgs)
    (ha : a ∈ (linkedin_ai_poster req env).trace.emailCalls) :
    a.recipient_email = a.sender_email ∧
    (send_email_message a).fromAddr = a.sender_email ∧
    (send_email_login a).1 = a.sender_email ∧
    ∃ j, req.json = some j ∧ j.destination_email = some a.sender_email := by
  obtain ⟨method, json⟩ := req
  simp only [linkedin_ai_poster] at ha
  split at ha
  · simp at ha
  cases json with
  | none => simp at ha
  | some j =>
    dsimp only at ha
    cases hv : validate j with
    | error r => rw [hv] at ha; simp at ha
    | ok v =>
      rw [hv] at ha
      dsimp only at ha
      simp only [runPipeline] at ha
      split at ha
      · simp at ha
      split at ha
      · simp at ha
      split at ha
      · simp at ha
      split at ha
      · simp at ha
      split at ha
      case isTrue hsef =>
        simp only [List.mem_singleton] at ha
        subst ha
        refine ⟨rfl, rfl, rfl, j, rfl, ?_⟩
        obtain ⟨hde, htr⟩ := validate_email_channel j v hv hsef
        cases hvd : v.destination_email with
        | none => rw [hvd] at htr; exact absurd htr (by decide)
        | some d =>
          rw [hvd] at hde
          simpa using hde.symm
      case isFalse => simp at ha

/-- Witness for C9: the concrete email request produces exactly one
`send_email` call, with `user@example.com` as both sender and
recipient. -/
theorem c9_email_sender_equals_destination_witness :
    userEmailArgs ∈
      (linkedin_ai_poster ⟨"POST", some emailReqJson⟩ envAllOk).trace.emailCalls ∧
    (userEmailArgs.recipient_email = userEmailArgs.sender_email ∧
      (send_email_message userEmailArgs).fromAddr = userEmailArgs.sender_email ∧
      (send_email_login userEmailArgs).1 = userEmailArgs.sender_email ∧
      ∃ j, (⟨"POST", some emailReqJson⟩ : HttpRequest).json = some j ∧
        j.destination_email = some userEmailArgs.sender_email) :=
  ⟨by decide,
    c9_email_sender_equals_destination ⟨"POST", some emailReqJson⟩ envAllOk userEmailArgs
      (by decide)⟩

end LinkAIin
